import Mathlib

/-!
Verification development for PyDataQuality.

The repository ships a command-line shell (cli.py) around a data-quality
analysis engine (the pydataquality package: sampler, column profiler,
issue detector, summary aggregator, analyzer facade).  The shell is
embedded here directly from cli.py; the engine, whose source is not part
of the visible tree, is modelled from the specification.  Numeric
statistics are represented by an executable, normalized rational type Q
(exact arithmetic standing in for Python floats on the small dyadic
values the spec talks about).
-/

/-- Executable rational numbers: a normalized pair of numerator and
positive denominator.  Used to model the percentage and quartile
arithmetic of the engine so that concrete runs evaluate by kernel
reduction. -/
structure Q where
  n : Int
  d : Nat
deriving DecidableEq

/-- Build a rational from a numerator and a denominator, reducing by the
gcd; a zero denominator yields 0. -/
def Q.mk2 (a : Int) (b : Nat) : Q :=
  if b = 0 then ⟨0, 1⟩
  else
    let g := Nat.gcd a.natAbs b
    ⟨a / (g : Int), b / g⟩

def Q.add (x y : Q) : Q := Q.mk2 (x.n * y.d + y.n * x.d) (x.d * y.d)

def Q.sub (x y : Q) : Q := Q.mk2 (x.n * y.d - y.n * x.d) (x.d * y.d)

def Q.mul (x y : Q) : Q := Q.mk2 (x.n * y.n) (x.d * y.d)

/-- Multiplicative inverse; 0 maps to 0. -/
def Q.inv (x : Q) : Q :=
  if x.n < 0 then Q.mk2 (-(x.d : Int)) x.n.natAbs else Q.mk2 (x.d : Int) x.n.natAbs

def Q.div (x y : Q) : Q := x.mul y.inv

def Q.neg (x : Q) : Q := ⟨-x.n, x.d⟩

instance : Add Q := ⟨Q.add⟩
instance : Sub Q := ⟨Q.sub⟩
instance : Mul Q := ⟨Q.mul⟩
instance : Div Q := ⟨Q.div⟩
instance : Neg Q := ⟨Q.neg⟩
instance : OfNat Q k := ⟨⟨k, 1⟩⟩
instance : NatCast Q := ⟨fun k => ⟨k, 1⟩⟩
instance : IntCast Q := ⟨fun k => ⟨k, 1⟩⟩
instance : LE Q := ⟨fun x y => x.n * y.d ≤ y.n * x.d⟩
instance : LT Q := ⟨fun x y => x.n * y.d < y.n * x.d⟩

instance (x y : Q) : Decidable (x ≤ y) :=
  inferInstanceAs (Decidable (x.n * y.d ≤ y.n * x.d))

instance (x y : Q) : Decidable (x < y) :=
  inferInstanceAs (Decidable (x.n * y.d < y.n * x.d))

/-- Floor of a rational, as an integer (denominators are positive). -/
def Q.floorInt (x : Q) : Int := Int.fdiv x.n x.d

def Q.sumList (xs : List Q) : Q := xs.foldr Q.add ⟨0, 1⟩

/-- A cell value of a tabular dataset: a missing marker, a number, or a
string.  Modelled from the spec: the engine operates on columns of
values of a single nominal type, possibly with missing markers. -/
inductive Value where
  | missing : Value
  | num : Q → Value
  | str : String → Value
deriving DecidableEq

/-- A named column: ordered sequence of values. -/
structure Column where
  name : String
  values : List Value
deriving DecidableEq

/-- A dataset: an ordered sequence of named columns.  Modelled from the
spec: immutable input to the engine. -/
structure Dataset where
  cols : List Column
deriving DecidableEq

/-- Number of rows, read off the first column (0 for a column-less
dataset), matching len(df) on a DataFrame. -/
def Dataset.rowCount (D : Dataset) : Nat :=
  (D.cols.head?.map (fun c => c.values.length)).getD 0

/-- Rectangularity: every column has exactly rowCount values. -/
def Dataset.Rect (D : Dataset) : Prop :=
  ∀ c ∈ D.cols, c.values.length = D.rowCount

/-- Configuration recognized by the core, with the spec's named
thresholds.  Modelled from the spec, section 6. -/
structure Config where
  cardinality_threshold : Q
  missing_warning_threshold : Q
  missing_critical_threshold : Q
  outlier_iqr_multiplier : Q
  high_cardinality_threshold : Q
  sample_seed : Nat
deriving DecidableEq

def defaultConfig : Config :=
  ⟨Q.mk2 1 20, 5, 50, Q.mk2 3 2, Q.mk2 9 10, 42⟩

/-- Error raised by the sampler on a non-positive sample request. -/
inductive SampleError where
  | invalidSampleSize : SampleError
deriving DecidableEq

/-- Deterministic seeded choice of k row indices out of rows (k ≤ rows):
a seed-rotated window.  Modelled from the spec: the sampler must be
deterministic under a fixed seed. -/
def sampleIndices (seed k rows : Nat) : List Nat :=
  (List.range k).map (fun i => (seed % rows + i) % rows)

/-- Restrict a column to the given row indices. -/
def Column.select (c : Column) (idxs : List Nat) : Column :=
  ⟨c.name, idxs.map (fun i => c.values.getD i Value.missing)⟩

/-- Modelled from the spec: sample_dataframe / the Sampler component.
Fails with InvalidSampleSize when the request is non-positive, is a
no-op when the request covers the whole dataset, and otherwise returns a
seed-determined subset of exactly the requested number of rows. -/
def sample (D : Dataset) (nreq : Int) (seed : Nat) : Except SampleError Dataset :=
  if nreq ≤ 0 then .error .invalidSampleSize
  else if (D.rowCount : Int) ≤ nreq then .ok D
  else
    let idxs := sampleIndices seed nreq.toNat D.rowCount
    .ok ⟨D.cols.map (fun c => c.select idxs)⟩

/-- Non-missing values of a column. -/
def nonMissing (vals : List Value) : List Value :=
  vals.filter (fun v => decide (v ≠ Value.missing))

def isNumV : Value → Bool
  | Value.num _ => true
  | _ => false

def isStrV : Value → Bool
  | Value.str _ => true
  | _ => false

/-- Numeric payloads of a column, missing and non-numeric cells dropped. -/
def numsOf (vals : List Value) : List Q :=
  vals.filterMap (fun v => match v with | Value.num q => some q | _ => none)

/-- String payloads of a column. -/
def strsOf (vals : List Value) : List String :=
  vals.filterMap (fun v => match v with | Value.str s => some s | _ => none)

/-- Inferred logical type of a column.  Modelled from the spec: boolean
and datetime are omitted because the modelled Value carries only numbers
and strings; a mixed column falls back to text. -/
inductive ColType where
  | numeric : ColType
  | categorical : ColType
  | text : ColType
deriving DecidableEq

/-- Modelled from the spec, section 4.2: numeric when all non-missing
values are numbers, categorical when all are strings and the
unique-count over row-count ratio is below the cardinality threshold,
text otherwise (including mixed columns, per the spec's
TypeInferenceAmbiguity fallback). -/
def inferColType (cfg : Config) (vals : List Value) : ColType :=
  let nm := nonMissing vals
  if nm ≠ [] ∧ nm.all isNumV then ColType.numeric
  else if nm ≠ [] ∧ nm.all isStrV ∧
      ((nm.dedup.length : Q) / (vals.length : Q) < cfg.cardinality_threshold) then
    ColType.categorical
  else ColType.text

def insertSorted (x : Q) : List Q → List Q
  | [] => [x]
  | y :: ys => if x ≤ y then x :: y :: ys else y :: insertSorted x ys

def sortQ (xs : List Q) : List Q := xs.foldr insertSorted []

/-- Linear-interpolation quantile of a sorted list (the default method
of the underlying dataframe library).  Modelled from the spec. -/
def quantile (xs : List Q) (p : Q) : Q :=
  match xs with
  | [] => 0
  | _ =>
    let h := p * ((xs.length : Q) - 1)
    let i := h.floorInt.toNat
    let g := h - (h.floorInt : Q)
    let a := xs.getD i 0
    let b := xs.getD (i + 1) a
    a + g * (b - a)

/-- Per-column statistics.  Modelled from the spec, section 3: name,
inferred type, row count, missing count and percentage, unique count,
and numeric-specific stats (none for non-numeric columns). -/
structure ColumnProfile where
  name : String
  inferred : ColType
  row_count : Nat
  missing_count : Nat
  missing_percentage : Q
  unique_count : Nat
  numMin : Option Q
  numMax : Option Q
  numMean : Option Q
  q1 : Option Q
  q3 : Option Q
  outlierLo : Option Q
  outlierHi : Option Q
  outlier_count : Nat
deriving DecidableEq

/-- Modelled from the spec: the Column Profiler on one column.  Missing
values are excluded from all statistics except the missing count;
numeric outlier bounds use the IQR rule with the configured
multiplier. -/
def profileColumn (cfg : Config) (c : Column) : ColumnProfile :=
  let rows := c.values.length
  let nm := nonMissing c.values
  let miss := rows - nm.length
  let missPct : Q := if rows = 0 then 0 else (miss : Q) / (rows : Q) * 100
  let uniq := nm.dedup.length
  let t := inferColType cfg c.values
  if t = ColType.numeric then
    let xs := sortQ (numsOf c.values)
    let q1v := quantile xs (Q.mk2 1 4)
    let q3v := quantile xs (Q.mk2 3 4)
    let iqr := q3v - q1v
    let lo := q1v - cfg.outlier_iqr_multiplier * iqr
    let hi := q3v + cfg.outlier_iqr_multiplier * iqr
    let oc := (numsOf c.values).countP (fun x => decide (x < lo) || decide (hi < x))
    ⟨c.name, t, rows, miss, missPct, uniq, xs.head?, xs.getLast?,
      some (Q.sumList xs / (xs.length : Q)), some q1v, some q3v, some lo, some hi, oc⟩
  else
    ⟨c.name, t, rows, miss, missPct, uniq, none, none, none, none, none, none, none, 0⟩

/-- Modelled from the spec: the Column Profiler, one profile per column,
order preserving. -/
def profile (cfg : Config) (D : Dataset) : List ColumnProfile :=
  D.cols.map (profileColumn cfg)

/-- Severity of an Issue. -/
inductive Severity where
  | critical : Severity
  | warning : Severity
  | info : Severity
deriving DecidableEq

/-- Fixed issue taxonomy of the Issue Detector.  Modelled from the spec,
section 4.3. -/
inductive IssueKind where
  | high_missing : IssueKind
  | moderate_missing : IssueKind
  | constant_column : IssueKind
  | high_cardinality_categorical : IssueKind
  | numeric_outliers : IssueKind
  | duplicate_rows : IssueKind
  | mixed_type_column : IssueKind
  | inconsistent_categories : IssueKind
deriving DecidableEq

/-- A detected data-quality problem.  Modelled from the spec: affected
column (none means dataset-level), kind, severity, message. -/
structure Issue where
  column : Option String
  kind : IssueKind
  severity : Severity
  message : String
deriving DecidableEq

def isWhitespaceChar (c : Char) : Bool :=
  decide (c = ' ') || decide (c = '\t') || decide (c = '\n') || decide (c = '\r')

def lowerChar (c : Char) : Char :=
  if 65 ≤ c.toNat ∧ c.toNat ≤ 90 then Char.ofNat (c.toNat + 32) else c

/-- Case- and whitespace-insensitive normal form of a category label. -/
def normCat (s : String) : List Char :=
  (((s.toList.dropWhile isWhitespaceChar).reverse.dropWhile isWhitespaceChar).reverse).map lowerChar

/-- Whether a column holds both numeric and string non-missing values
(the spec's mixed_type_column trigger). -/
def mixedType (vals : List Value) : Bool :=
  (nonMissing vals).any isNumV && (nonMissing vals).any isStrV

/-- Whether two distinct category labels collapse under case and
whitespace normalization. -/
def hasInconsistentCats (vals : List Value) : Bool :=
  let ss := (strsOf vals).dedup
  ss.any (fun s => ss.any (fun t => decide (s ≠ t) && decide (normCat s = normCat t)))

/-- Modelled from the spec, section 4.3: the per-column detection rules,
in the fixed table order, severities table-driven from the
configuration thresholds. -/
def columnIssues (cfg : Config) (c : Column) (p : ColumnProfile) : List Issue :=
  (if cfg.missing_critical_threshold < p.missing_percentage then
    [⟨some p.name, IssueKind.high_missing, Severity.critical, "missing values above critical threshold"⟩]
  else []) ++
  (if cfg.missing_warning_threshold < p.missing_percentage ∧
      p.missing_percentage ≤ cfg.missing_critical_threshold then
    [⟨some p.name, IssueKind.moderate_missing, Severity.warning, "missing values above warning threshold"⟩]
  else []) ++
  (if p.unique_count = 1 then
    [⟨some p.name, IssueKind.constant_column, Severity.warning, "column holds a single distinct value"⟩]
  else []) ++
  (if p.inferred = ColType.categorical ∧
      cfg.high_cardinality_threshold < (p.unique_count : Q) / (p.row_count : Q) then
    [⟨some p.name, IssueKind.high_cardinality_categorical, Severity.info, "categorical column with very many distinct values"⟩]
  else []) ++
  (if p.inferred = ColType.numeric ∧ 0 < p.outlier_count then
    [⟨some p.name, IssueKind.numeric_outliers, Severity.warning, "values outside the IQR bounds"⟩]
  else []) ++
  (if mixedType c.values then
    [⟨some p.name, IssueKind.mixed_type_column, Severity.critical, "raw values do not coerce uniformly"⟩]
  else []) ++
  (if hasInconsistentCats c.values then
    [⟨some p.name, IssueKind.inconsistent_categories, Severity.info, "categories differ only by case or whitespace"⟩]
  else [])

/-- Row i of a dataset, as the list of the cells of every column. -/
def Dataset.rowAt (D : Dataset) (i : Nat) : List Value :=
  D.cols.map (fun c => c.values.getD i Value.missing)

def Dataset.rowsList (D : Dataset) : List (List Value) :=
  (List.range D.rowCount).map D.rowAt

/-- Whether exact duplicate rows exist across all columns. -/
def hasDuplicateRows (D : Dataset) : Bool :=
  decide (¬ D.rowsList.Nodup)

/-- Modelled from the spec: the Issue Detector.  Column order first,
then rule order within a column, then the single dataset-level
duplicate-rows rule; detection order is stable. -/
def detect (cfg : Config) (D : Dataset) (ps : List ColumnProfile) : List Issue :=
  ((D.cols.zip ps).map (fun cp => columnIssues cfg cp.1 cp.2)).flatten ++
  (if hasDuplicateRows D then
    [⟨none, IssueKind.duplicate_rows, Severity.warning, "exact duplicate rows present"⟩]
  else [])

/-- Issue counts keyed by severity: the issues_by_severity mapping. -/
structure SevCounts where
  critical : Nat
  warning : Nat
  info : Nat
deriving DecidableEq

def SevCounts.total (s : SevCounts) : Nat := s.critical + s.warning + s.info

def countBySeverity (l : List Issue) : SevCounts :=
  ⟨l.countP (fun i => decide (i.severity = Severity.critical)),
   l.countP (fun i => decide (i.severity = Severity.warning)),
   l.countP (fun i => decide (i.severity = Severity.info))⟩

/-- Global missing-data rollup of a Summary. -/
structure MissingOverview where
  total_missing_cells : Nat
  total_missing_percentage : Q
  per_column : List (String × Nat)
deriving DecidableEq

/-- Aggregate view over all Issues and ColumnProfiles of one run.
Modelled from the spec, section 3. -/
structure Summary where
  rows : Nat
  columns : Nat
  issues_by_severity : SevCounts
  missing_data_overview : MissingOverview
  issues : List Issue
  profiles : List ColumnProfile
deriving DecidableEq

/-- Errors surfaced by the analysis engine. -/
inductive AnalysisError where
  | emptyDataset : AnalysisError
  | invalidSampleSize : AnalysisError
deriving DecidableEq

/-- The Summary built by the aggregator in the non-error case: issue
counts grouped by severity, missing-data rollup over the profiles,
dataset shape. -/
def mkSummary (D : Dataset) (ps : List ColumnProfile) (issues : List Issue) : Summary :=
  let rows := D.rowCount
  let cols := D.cols.length
  let total := (ps.map ColumnProfile.missing_count).sum
  let pct : Q := if rows * cols = 0 then 0
    else (total : Q) / ((rows * cols : Nat) : Q) * 100
  ⟨rows, cols, countBySeverity issues,
    ⟨total, pct, ps.map (fun p => (p.name, p.missing_count))⟩, issues, ps⟩

/-- Modelled from the spec, section 4.4: the Summary Aggregator.  Fails
with EmptyDatasetError only when both rows and columns are zero; the
total missing percentage is 0 when the cell count is zero. -/
def aggregate (D : Dataset) (ps : List ColumnProfile) (issues : List Issue) :
    Except AnalysisError Summary :=
  if D.rowCount = 0 ∧ D.cols.length = 0 then .error .emptyDataset
  else .ok (mkSummary D ps issues)

/-- The queryable result object of one analysis run.  Modelled from the
spec, section 3. -/
structure AnalysisResult where
  dataset : Dataset
  profiles : List ColumnProfile
  issues : List Issue
  summary : Summary
deriving DecidableEq

/-- Profile, detect and aggregate one (already sampled) dataset. -/
def analyzeCore (cfg : Config) (D : Dataset) : Except AnalysisError AnalysisResult :=
  match aggregate D (profile cfg D) (detect cfg D (profile cfg D)) with
  | .error e => .error e
  | .ok s => .ok ⟨D, profile cfg D, detect cfg D (profile cfg D), s⟩

/-- Modelled from the spec, section 4.5: the Analyzer facade
(analyze_dataframe).  Optionally sample, then profile, detect and
aggregate. -/
def analyze (D : Dataset) (cfg : Config) (sampleSize : Option Int) :
    Except AnalysisError AnalysisResult :=
  match sampleSize with
  | none => analyzeCore cfg D
  | some nreq =>
    match sample D nreq cfg.sample_seed with
    | .error _ => .error .invalidSampleSize
    | .ok E => analyzeCore cfg E

/-- Extension of a path per os.path.splitext, lowercased: the suffix
from the last dot of the basename, provided some earlier basename
character is not a dot (embeds cli.py line 49). -/
def extOf (file : String) : String :=
  let base := ((file.toList.reverse.takeWhile (fun c => decide (c ≠ '/'))).reverse)
  match (List.range base.length).reverse.find? (fun i =>
      decide (base.getD i ' ' = '.') &&
      (List.range i).any (fun j => decide (base.getD j ' ' ≠ '.'))) with
  | none => ""
  | some k => String.mk ((base.drop k).map lowerChar)

/-- The loading branch cli.main takes (cli.py lines 53-64). -/
inductive LoadBranch where
  | csv : LoadBranch
  | excel : LoadBranch
  | json : LoadBranch
  | parquet : LoadBranch
  | fallbackCsv : LoadBranch
deriving DecidableEq

/-- Branch dispatch of cli.main: a function of the file extension only
(cli.py lines 53-64); an unknown extension falls back to CSV. -/
def loadBranch (ext : String) : LoadBranch :=
  if ext = ".csv" then LoadBranch.csv
  else if ext = ".xlsx" ∨ ext = ".xls" then LoadBranch.excel
  else if ext = ".json" then LoadBranch.json
  else if ext = ".parquet" then LoadBranch.parquet
  else LoadBranch.fallbackCsv

/-- Parsed command-line arguments of cli.main (cli.py lines 32-46). -/
structure CliArgs where
  file : String
  name : String
  fmt : String
  report : String
  output : Option String
  visualize : Bool
  sampleArg : Option Int
  verbose : Bool
deriving DecidableEq

/-- The file-loading collaborators (pandas readers), abstracted as an
environment: each reader either yields a dataset or fails with an
exception message. -/
structure LoadEnv where
  readCsv : String → Except String Dataset
  readExcel : String → Except String Dataset
  readJson : String → Except String Dataset
  readParquet : String → Except String Dataset

def branchOf (args : CliArgs) : LoadBranch := loadBranch (extOf args.file)

/-- Outcome of the load step of cli.main (cli.py lines 52-64). -/
def loadResultOf (env : LoadEnv) (args : CliArgs) : Except String Dataset :=
  match branchOf args with
  | LoadBranch.csv => env.readCsv args.file
  | LoadBranch.excel => env.readExcel args.file
  | LoadBranch.json => env.readJson args.file
  | LoadBranch.parquet => env.readParquet args.file
  | LoadBranch.fallbackCsv => env.readCsv args.file

/-- Observable outcome of one cli.main run: the load-failure message if
any, the process exit code, the n_samples value passed to
sample_dataframe if it was invoked, and the analysis result if one was
produced. -/
structure MainOutcome where
  printedError : Option String
  exitCode : Nat
  sampleCall : Option Int
  analysis : Option AnalysisResult
deriving DecidableEq

/-- Analysis stage of cli.main (cli.py line 86): an engine error escapes
as an uncaught exception, terminating with a nonzero status. -/
def finishRun (df : Dataset) (sc : Option Int) : MainOutcome :=
  match analyze df defaultConfig none with
  | .error _ => ⟨none, 1, sc, none⟩
  | .ok r => ⟨none, 0, sc, some r⟩

/-- Embedding of cli.main (cli.py lines 49-109): determine the file
extension, load through the matching reader, print an error and exit 1
on a load failure, sample when the --sample value is truthy and below
the row count, then analyze. -/
def mainRun (env : LoadEnv) (args : CliArgs) : MainOutcome :=
  match loadResultOf env args with
  | .error msg => ⟨some ("Error loading file: " ++ msg), 1, none, none⟩
  | .ok df =>
    match args.sampleArg with
    | some nv =>
      if nv ≠ 0 ∧ nv < (df.rowCount : Int) then
        match sample df nv defaultConfig.sample_seed with
        | .error _ => ⟨none, 1, some nv, none⟩
        | .ok df2 => finishRun df2 (some nv)
      else finishRun df none
    | none => finishRun df none

/-- A 4-row, 2-column dataset with exactly one missing cell (the
spec's missing-data arithmetic example). -/
def exD4 : Dataset :=
  ⟨[⟨"a", [Value.num 1, Value.num 2, Value.missing, Value.num 4]⟩,
    ⟨"b", [Value.str ("p"), Value.str ("q"), Value.str ("r"), Value.str ("s")]⟩]⟩

/-- A single numeric column 1, 2, 3, 4, 1000 (the spec's outlier
example). -/
def exOutD : Dataset :=
  ⟨[⟨"x", [Value.num 1, Value.num 2, Value.num 3, Value.num 4, Value.num 1000]⟩]⟩

/-- Zero rows under one named column. -/
def exEmptyRows : Dataset := ⟨[⟨"a", []⟩]⟩

/-- The analysis result of a default-configuration run, with a dummy
fallback on failure (used only to name concrete successful runs). -/
def runOf (D : Dataset) : AnalysisResult :=
  match analyze D defaultConfig none with
  | .ok r => r
  | .error _ => ⟨D, [], [], ⟨0, 0, ⟨0, 0, 0⟩, ⟨0, 0, []⟩, [], []⟩⟩

/-- A loading environment in which every reader fails with a missing
file error. -/
def failEnv : LoadEnv :=
  ⟨fun _ => .error ("No such file or directory"),
   fun _ => .error ("No such file or directory"),
   fun _ => .error ("No such file or directory"),
   fun _ => .error ("No such file or directory")⟩

/-- A loading environment in which every reader yields the 4-by-2
example dataset. -/
def okEnv : LoadEnv :=
  ⟨fun _ => .ok exD4, fun _ => .ok exD4, fun _ => .ok exD4, fun _ => .ok exD4⟩

/-- Default-looking CLI arguments for a CSV file, with the given
--sample value. -/
def argsWithSample (sa : Option Int) : CliArgs :=
  ⟨"data.csv", "Dataset", "csv", "html", none, false, sa, false⟩

/-- The outlier example column on its own. -/
def exOutCol : Column :=
  ⟨"x", [Value.num 1, Value.num 2, Value.num 3, Value.num 4, Value.num 1000]⟩

theorem countBySeverity_total (l : List Issue) : (countBySeverity l).total = l.length := by
  induction l with
  | nil => rfl
  | cons a l ih =>
    simp only [countBySeverity, SevCounts.total, List.countP_cons] at *
    cases h : a.severity <;> simp [h] <;> omega

theorem aggregate_ok_eq {D : Dataset} {ps : List ColumnProfile} {issues : List Issue}
    {s : Summary} (h : aggregate D ps issues = .ok s) : s = mkSummary D ps issues := by
  unfold aggregate at h
  by_cases hc : (D.rowCount = 0 ∧ D.cols.length = 0)
  · rw [if_pos hc] at h; cases h
  · rw [if_neg hc] at h; injection h with h2; exact h2.symm

theorem analyzeCore_ok_eq {cfg : Config} {D : Dataset} {r : AnalysisResult}
    (h : analyzeCore cfg D = .ok r) :
    r = ⟨D, profile cfg D, detect cfg D (profile cfg D),
      mkSummary D (profile cfg D) (detect cfg D (profile cfg D))⟩ := by
  unfold analyzeCore at h
  split at h
  · cases h
  · rename_i s ha
    injection h with h2
    rw [← h2, aggregate_ok_eq ha]

theorem analyze_ok_core {D : Dataset} {cfg : Config} {ss : Option Int} {r : AnalysisResult}
    (h : analyze D cfg ss = .ok r) : ∃ E, analyzeCore cfg E = .ok r := by
  cases ss with
  | none => exact ⟨D, h⟩
  | some nreq =>
    simp only [analyze] at h
    split at h
    · cases h
    · rename_i E hs
      exact ⟨E, h⟩

/-- Claim C1: for every dataset on which analyze succeeds, the counts of
the issues_by_severity mapping sum over all severities to the length of
the full Issue list of that analysis run. -/
theorem analyze_severity_counts_sum (D : Dataset) (cfg : Config) (ss : Option Int)
    (r : AnalysisResult) (h : analyze D cfg ss = .ok r) :
    r.summary.issues_by_severity.total = r.issues.length := by
  obtain ⟨E, hE⟩ := analyze_ok_core h
  rw [analyzeCore_ok_eq hE]
  simp only [mkSummary]
  exact countBySeverity_total _

/-- Witness for C1: the severity counts of the outlier example run sum
to its issue count. -/
theorem analyze_severity_counts_sum_witness :
    (runOf exOutD).summary.issues_by_severity.total = (runOf exOutD).issues.length :=
  analyze_severity_counts_sum exOutD defaultConfig none (runOf exOutD) rfl

/-- Claim C2: two runs of analyze on the same dataset and configuration
yield value-equal Issues, ColumnProfiles and Summary. -/
theorem analyze_deterministic (D : Dataset) (cfg : Config) (ss : Option Int)
    (r1 r2 : AnalysisResult) (h1 : analyze D cfg ss = .ok r1)
    (h2 : analyze D cfg ss = .ok r2) :
    r1.issues = r2.issues ∧ r1.profiles = r2.profiles ∧ r1.summary = r2.summary := by
  have h3 : r1 = r2 := by injection h1.symm.trans h2
  rw [h3]
  exact ⟨rfl, rfl, rfl⟩

/-- Witness for C2 at the 4-by-2 example dataset. -/
theorem analyze_deterministic_witness :
    (runOf exD4).issues = (runOf exD4).issues ∧
    (runOf exD4).profiles = (runOf exD4).profiles ∧
    (runOf exD4).summary = (runOf exD4).summary :=
  analyze_deterministic exD4 defaultConfig none (runOf exD4) (runOf exD4) rfl rfl

/-- Claim C4: on every successful analysis the total missing cells equal
the sum of the per-column missing counts and the total missing
percentage is cells over rows times columns times 100 (0 on an empty
cell grid); the 4-row 2-column one-missing-cell example yields 1 cell
and 12.5 percent. -/
theorem missing_overview_arithmetic :
    (∀ (D : Dataset) (cfg : Config) (ss : Option Int) (r : AnalysisResult),
      analyze D cfg ss = .ok r →
      r.summary.missing_data_overview.total_missing_cells =
        (r.summary.missing_data_overview.per_column.map Prod.snd).sum ∧
      r.summary.missing_data_overview.total_missing_percentage =
        (if r.summary.rows * r.summary.columns = 0 then 0
         else ((r.summary.missing_data_overview.total_missing_cells : Nat) : Q) /
           (((r.summary.rows * r.summary.columns : Nat)) : Q) * 100)) ∧
    (∃ r, analyze exD4 defaultConfig none = .ok r ∧
      r.summary.missing_data_overview.total_missing_cells = 1 ∧
      r.summary.missing_data_overview.total_missing_percentage = Q.mk2 25 2) := by
  constructor
  · intro D cfg ss r h
    obtain ⟨E, hE⟩ := analyze_ok_core h
    rw [analyzeCore_ok_eq hE]
    simp only [mkSummary]
    constructor
    · rw [List.map_map]
      rfl
    · trivial
  · exact ⟨runOf exD4, rfl, by decide, by decide⟩

/-- Witness for C4 at the 4-by-2 example dataset. -/
theorem missing_overview_arithmetic_witness :
    (runOf exD4).summary.missing_data_overview.total_missing_cells =
      ((runOf exD4).summary.missing_data_overview.per_column.map Prod.snd).sum ∧
    (runOf exD4).summary.missing_data_overview.total_missing_percentage =
      (if (runOf exD4).summary.rows * (runOf exD4).summary.columns = 0 then 0
       else (((runOf exD4).summary.missing_data_overview.total_missing_cells : Nat) : Q) /
         ((((runOf exD4).summary.rows * (runOf exD4).summary.columns : Nat)) : Q) * 100) :=
  missing_overview_arithmetic.1 exD4 defaultConfig none (runOf exD4) rfl

/-- Claim C5: sample fails with InvalidSampleSize exactly when the
request is non-positive, and succeeds for every positive request. -/
theorem sample_invalid_size_rule (D : Dataset) (nreq : Int) (seed : Nat) :
    (sample D nreq seed = .error SampleError.invalidSampleSize ↔ nreq ≤ 0) ∧
    (0 < nreq → ∃ E, sample D nreq seed = .ok E) := by
  unfold sample
  by_cases h : nreq ≤ 0
  · rw [if_pos h]
    exact ⟨⟨fun _ => h, fun _ => rfl⟩, fun hq => absurd h (by omega)⟩
  · rw [if_neg h]
    constructor
    · constructor
      · intro hbad
        by_cases h2 : (D.rowCount : Int) ≤ nreq
        · rw [if_pos h2] at hbad; cases hbad
        · rw [if_neg h2] at hbad; cases hbad
      · intro hle; exact absurd hle h
    · intro _
      by_cases h2 : (D.rowCount : Int) ≤ nreq
      · rw [if_pos h2]; exact ⟨D, rfl⟩
      · rw [if_neg h2]; exact ⟨_, rfl⟩

/-- Witness for C5: a request of 2 rows is not rejected. -/
theorem sample_invalid_size_rule_witness :
    (sample exD4 2 42 = .error SampleError.invalidSampleSize ↔ (2 : Int) ≤ 0) ∧
    (∃ E, sample exD4 2 42 = .ok E) :=
  ⟨(sample_invalid_size_rule exD4 2 42).1,
   (sample_invalid_size_rule exD4 2 42).2 (by decide)⟩

theorem rowCount_map_select (D : Dataset) (idxs : List Nat) (hne : D.cols ≠ []) :
    (Dataset.mk (D.cols.map (fun c => c.select idxs))).rowCount = idxs.length := by
  cases hc : D.cols with
  | nil => exact absurd hc hne
  | cons c cs => simp [Dataset.rowCount, Column.select]

/-- Claim C6: for every positive request the sampled dataset has
min(n, rowCount) rows, and the sampler returns the input unchanged when
the request covers all rows. -/
theorem sample_row_count_rule (D : Dataset) (nreq : Int) (seed : Nat) (h : 0 < nreq) :
    ∃ E, sample D nreq seed = .ok E ∧
      E.rowCount = min nreq.toNat D.rowCount ∧
      ((D.rowCount : Int) ≤ nreq → E = D) := by
  unfold sample
  rw [if_neg (by omega : ¬ nreq ≤ 0)]
  by_cases h2 : (D.rowCount : Int) ≤ nreq
  · rw [if_pos h2]
    refine ⟨D, rfl, ?_, fun _ => rfl⟩
    omega
  · rw [if_neg h2]
    refine ⟨_, rfl, ?_, fun hcon => absurd hcon h2⟩
    have hlt : nreq.toNat < D.rowCount := by omega
    have hne : D.cols ≠ [] := by
      intro hnil
      have hz : D.rowCount = 0 := by simp [Dataset.rowCount, hnil]
      omega
    rw [rowCount_map_select D _ hne]
    simp only [sampleIndices, List.length_map, List.length_range]
    omega

/-- Witness for C6: sampling 3 of the 5 outlier-example rows yields 3
rows. -/
theorem sample_row_count_rule_witness :
    ∃ E, sample exOutD 3 7 = .ok E ∧
      E.rowCount = min (Int.toNat 3) exOutD.rowCount ∧
      ((exOutD.rowCount : Int) ≤ 3 → E = exOutD) :=
  sample_row_count_rule exOutD 3 7 (by decide)

theorem profileColumn_missing_percentage (cfg : Config) (c : Column) :
    (profileColumn cfg c).missing_percentage =
      (if c.values.length = 0 then 0
       else (((c.values.length - (nonMissing c.values).length : Nat)) : Q) /
         ((c.values.length : Nat) : Q) * 100) := by
  simp only [profileColumn]
  split <;> rfl

/-- Claim C3: analyze fails with EmptyDatasetError exactly when the
dataset has zero rows and zero columns; on zero rows under at least one
named column it succeeds and every reported percentage statistic
(the total missing percentage and each per-column missing percentage)
is zero. -/
theorem analyze_empty_dataset_rule :
    (∀ (D : Dataset) (cfg : Config),
      analyze D cfg none = .error AnalysisError.emptyDataset ↔
        (D.rowCount = 0 ∧ D.cols.length = 0)) ∧
    (∀ (D : Dataset) (cfg : Config), D.Rect → D.rowCount = 0 → D.cols ≠ [] →
      ∃ r, analyze D cfg none = .ok r ∧
        r.summary.missing_data_overview.total_missing_percentage = 0 ∧
        ∀ p ∈ r.profiles, p.missing_percentage = 0) := by
  constructor
  · intro D cfg
    show analyzeCore cfg D = _ ↔ _
    unfold analyzeCore aggregate
    by_cases hc : (D.rowCount = 0 ∧ D.cols.length = 0)
    · rw [if_pos hc]
      exact ⟨fun _ => hc, fun _ => rfl⟩
    · rw [if_neg hc]
      exact ⟨fun hbad => Except.noConfusion hbad, fun hx => absurd hx hc⟩
  · intro D cfg hrect hrows hcols
    have hc : ¬ (D.rowCount = 0 ∧ D.cols.length = 0) := by
      intro hand
      exact hcols (List.length_eq_zero.mp hand.2)
    refine ⟨⟨D, profile cfg D, detect cfg D (profile cfg D),
      mkSummary D (profile cfg D) (detect cfg D (profile cfg D))⟩, ?_, ?_, ?_⟩
    · show analyzeCore cfg D = _
      unfold analyzeCore aggregate
      rw [if_neg hc]
    · simp [mkSummary, hrows]
    · intro p hp
      simp only [profile, List.mem_map] at hp
      obtain ⟨c, hcmem, rfl⟩ := hp
      have hlen : c.values.length = 0 := by rw [hrect c hcmem, hrows]
      rw [profileColumn_missing_percentage, if_pos hlen]

/-- Witness for C3: zero rows under one named column analyze
successfully with all percentages zero. -/
theorem analyze_empty_dataset_rule_witness :
    ∃ r, analyze exEmptyRows defaultConfig none = .ok r ∧
      r.summary.missing_data_overview.total_missing_percentage = 0 ∧
      ∀ p ∈ r.profiles, p.missing_percentage = 0 :=
  analyze_empty_dataset_rule.2 exEmptyRows defaultConfig
    (by unfold Dataset.Rect; decide) (by decide) (by decide)

/-- Claim C8: on the column 1, 2, 3, 4, 1000 the profiler computes
quartiles 2 and 4 and the outlier bounds Q1 minus 1.5 IQR and Q3 plus
1.5 IQR, the value 1000 lies above the upper bound, and the detector
emits exactly one numeric_outliers Issue for that column. -/
theorem outlier_iqr_rule_example :
    profile defaultConfig exOutD = [profileColumn defaultConfig exOutCol] ∧
    (profileColumn defaultConfig exOutCol).q1 = some 2 ∧
    (profileColumn defaultConfig exOutCol).q3 = some 4 ∧
    (profileColumn defaultConfig exOutCol).outlierLo =
      some (2 - defaultConfig.outlier_iqr_multiplier * (4 - 2)) ∧
    (profileColumn defaultConfig exOutCol).outlierHi =
      some (4 + defaultConfig.outlier_iqr_multiplier * (4 - 2)) ∧
    (4 + defaultConfig.outlier_iqr_multiplier * (4 - 2) < (1000 : Q)) ∧
    ((detect defaultConfig exOutD (profile defaultConfig exOutD)).filter
      (fun i => decide (i.kind = IssueKind.numeric_outliers) &&
        decide (i.column = some ("x")))).length = 1 := by
  refine ⟨rfl, ?_, ?_, ?_, ?_, ?_, ?_⟩ <;> decide

/-- Claim C7: when the loading collaborator fails, cli.main prints a
top-level error message, terminates with a nonzero exit status, and no
AnalysisResult (partial or otherwise) is produced. -/
theorem cli_load_failure_behavior (env : LoadEnv) (args : CliArgs) (msg : String)
    (h : loadResultOf env args = .error msg) :
    (mainRun env args).printedError = some ("Error loading file: " ++ msg) ∧
    (mainRun env args).exitCode ≠ 0 ∧
    (mainRun env args).analysis = none := by
  unfold mainRun
  rw [h]
  exact ⟨rfl, Nat.one_ne_zero, rfl⟩

/-- Witness for C7: a missing file makes the CLI print the loading
error, exit nonzero, and produce no analysis. -/
theorem cli_load_failure_behavior_witness :
    (mainRun failEnv (argsWithSample none)).printedError =
      some ("Error loading file: " ++ "No such file or directory") ∧
    (mainRun failEnv (argsWithSample none)).exitCode ≠ 0 ∧
    (mainRun failEnv (argsWithSample none)).analysis = none :=
  cli_load_failure_behavior failEnv (argsWithSample none)
    ("No such file or directory") rfl

/-- Claim C9: the loading branch and the whole cli.main outcome are
functions of the file and environment only; two invocations differing
only in the --format argument take the same branch, load the same
dataframe, and coincide entirely. -/
theorem cli_format_not_consulted (env : LoadEnv) (file nm fmt1 fmt2 rep : String)
    (outp : Option String) (viz : Bool) (samp : Option Int) (verb : Bool) :
    branchOf ⟨file, nm, fmt1, rep, outp, viz, samp, verb⟩ =
      branchOf ⟨file, nm, fmt2, rep, outp, viz, samp, verb⟩ ∧
    loadResultOf env ⟨file, nm, fmt1, rep, outp, viz, samp, verb⟩ =
      loadResultOf env ⟨file, nm, fmt2, rep, outp, viz, samp, verb⟩ ∧
    mainRun env ⟨file, nm, fmt1, rep, outp, viz, samp, verb⟩ =
      mainRun env ⟨file, nm, fmt2, rep, outp, viz, samp, verb⟩ :=
  ⟨rfl, rfl, rfl⟩

theorem finishRun_sampleCall (df : Dataset) (sc : Option Int) :
    (finishRun df sc).sampleCall = sc := by
  unfold finishRun
  split <;> rfl

/-- Claim C10: cli.main invokes sample_dataframe exactly when --sample
is given, nonzero, and strictly below the loaded row count; --sample 0
behaves exactly like omitting --sample and raises no error; a negative
--sample value below the row count is passed through unmodified as
n_samples. -/
theorem cli_sampling_condition (env : LoadEnv) (args : CliArgs) (df : Dataset)
    (h : loadResultOf env args = .ok df) :
    ((mainRun env args).sampleCall =
      (match args.sampleArg with
       | none => none
       | some nv => if nv ≠ 0 ∧ nv < (df.rowCount : Int) then some nv else none)) ∧
    (args.sampleArg = some 0 →
      mainRun env args =
        mainRun env ⟨args.file, args.name, args.fmt, args.report, args.output,
          args.visualize, none, args.verbose⟩) ∧
    (∀ nv : Int, args.sampleArg = some nv → nv < 0 → nv < (df.rowCount : Int) →
      (mainRun env args).sampleCall = some nv) := by
  obtain ⟨f, nm, fm, rp, op, vz, sa, vb⟩ := args
  have h2 : loadResultOf env ⟨f, nm, fm, rp, op, vz, none, vb⟩ = Except.ok df := h
  unfold mainRun
  dsimp only
  rw [h, h2]
  dsimp only
  cases sa with
  | none =>
    dsimp only
    refine ⟨(finishRun_sampleCall df none), ?_, ?_⟩
    · intro hcon; cases hcon
    · intro nv hcon; cases hcon
  | some nv =>
    dsimp only
    by_cases hcond : (nv ≠ 0 ∧ nv < (df.rowCount : Int))
    · simp only [if_pos hcond]
      refine ⟨?_, ?_, ?_⟩
      · cases hs : sample df nv defaultConfig.sample_seed with
        | error e => rfl
        | ok df2 => exact finishRun_sampleCall df2 (some nv)
      · intro hz
        injection hz with hz2
        exact absurd hz2 hcond.1
      · intro nv2 heq hneg hlt
        injection heq with heq2
        subst heq2
        cases hs : sample df nv defaultConfig.sample_seed with
        | error e => rfl
        | ok df2 => exact finishRun_sampleCall df2 (some nv)
    · simp only [if_neg hcond]
      refine ⟨finishRun_sampleCall df none, fun _ => trivial, ?_⟩
      intro nv2 heq hneg hlt
      injection heq with heq2
      subst heq2
      exact absurd ⟨by omega, hlt⟩ hcond

/-- Witness for C10: with --sample 0 the CLI run coincides with the run
without --sample (no sampling, no error). -/
theorem cli_sampling_condition_witness :
    mainRun okEnv (argsWithSample (some 0)) = mainRun okEnv (argsWithSample none) :=
  (cli_sampling_condition okEnv (argsWithSample (some 0)) exD4 rfl).2.1 rfl
